import Mathlib

/-!
Shallow embedding of `tools/train_semantic_segmentation_model.py`.

The script is an epoch-driven training driver.  We embed it as pure Lean
functions that return the trace of observable effects (directory creation,
logger output, checkpoint writes, renames, framework calls) together with the
outcome (normal return or a raised Python exception).  External collaborators
(the torch framework, `train_segmentation`, `compute_segmentation_test_loss`,
the scheduler) are abstracted by an environment `Env` that supplies their
results; floats are modelled as rationals; `torch.cuda.empty_cache`,
`set_seed` and data-loader wiring are modelled as effect-free framework calls.
-/

namespace TrainSemSeg

/-- Values stored in an `argparse` namespace. -/
inductive PyVal where
  | str (s : String)
  | int (n : Int)
deriving Repr, DecidableEq

/-- Python exceptions that the driver can raise. -/
inductive PyError where
  | assertionError (msg : String)
  | attributeError (name : String)
  | nameError (name : String)
deriving Repr, DecidableEq

/-- The checkpoint record written to `checkpoints/latest.pth` (lines 173-181):
exactly six fields.  Serialized state dicts are abstracted as natural-number
tokens. -/
structure Checkpoint where
  epoch : Nat
  test_loss : ℚ
  lr : ℚ
  model_state_dict : Nat
  optimizer_state_dict : Nat
  scheduler_state_dict : Nat
deriving Repr, DecidableEq

/-- The fields of the `config` object that the driver itself reads.  The model,
criterion, decoder and datasets are external objects with no observable
behaviour of their own in this file, so they are not modelled as data. -/
structure Config where
  distributed : Bool
  epochs : Nat
  eval_epoch : List Nat
  network : String
  seed : Nat
  num_workers : Nat
  batch_size : Nat
deriving Repr, DecidableEq

/-- Observable effects of one run of the driver, in program order. -/
inductive Action where
  | emptyCache
  | sysPathAppend (dir : String)
  | importTrainConfig (dir : String)
  | setSeed (seed : Nat)
  | initProcessGroup
  | setDevice (rank : Int)
  | mkdir (path : String)
  | barrier
  | getLogger (dir : String)
  | logInfo (msg : String)
  | setEpoch (epoch : Nat)
  | trainEpoch (epoch : Nat)
  | evalEpoch (epoch : Nat)
  | saveBest (path : String)
  | saveLatest (path : String) (record : Checkpoint)
  | rename (src dst : String)
deriving Repr, DecidableEq

/-- Actions the source performs only under the rank-0 gate
`(config.distributed and local_rank == 0) or not config.distributed`:
logger output, directory creation, checkpoint writes and the final rename. -/
def Action.isRankZeroOnly : Action → Bool
  | .mkdir _ => true
  | .logInfo _ => true
  | .saveBest _ => true
  | .saveLatest _ _ => true
  | .rename _ _ => true
  | _ => false

/-- Training, logging and checkpointing effects (for the claim that the
`local_rank` failure happens before any of them). -/
def Action.isTrainLogOrCkpt : Action → Bool
  | .logInfo _ => true
  | .trainEpoch _ => true
  | .evalEpoch _ => true
  | .saveBest _ => true
  | .saveLatest _ _ => true
  | .rename _ _ => true
  | _ => false

def Action.isSaveBest : Action → Bool
  | .saveBest _ => true
  | _ => false

def Action.isRename : Action → Bool
  | .rename _ _ => true
  | _ => false

/-- The checkpoint record carried by a `saveLatest` action, if any. -/
def Action.getSaveLatest : Action → Option Checkpoint
  | .saveLatest _ c => some c
  | _ => none

/-- The destination path and checkpoint record of a `saveLatest` action. -/
def Action.getSaveLatestPR : Action → Option (String × Checkpoint)
  | .saveLatest p c => some (p, c)
  | _ => none

/-- File-system paths an action touches. -/
def Action.paths : Action → List String
  | .mkdir p => [p]
  | .getLogger d => [d]
  | .saveBest p => [p]
  | .saveLatest p _ => [p]
  | .rename s d => [s, d]
  | _ => []

/-- Environment: everything the driver observes from outside this file.
Functions of the epoch number abstract the results of the external training /
evaluation calls and the mutable model / optimizer / scheduler objects. -/
structure Env where
  cuda_available : Bool
  work_dir : String
  config : Config
  gpus_type : String
  gpus_num : Nat
  param_names : List (String × Bool)
  buffer_names : List (String × Bool)
  latest_exists : Bool
  best_exists_at_start : Bool
  saved : Checkpoint
  checkpoint_dir_exists : Bool
  log_dir_exists : Bool
  init_model_state : Nat
  init_optimizer_state : Nat
  init_scheduler_state : Nat
  model_state : Nat → Nat
  optimizer_state : Nat → Nat
  scheduler_state : Nat → Nat
  train_loss : Nat → ℚ
  eval_loss : Nat → ℚ
  sched_lr : Nat → ℚ

/-- `os.path.join` on the paths this script builds. -/
def os_path_join (a b : String) : String := a ++ "/" ++ b

/-- `log_dir = os.path.join(args.work_dir, 'log')` (line 41). -/
def log_dir (work_dir : String) : String := os_path_join work_dir "log"

/-- `checkpoint_dir = os.path.join(args.work_dir, 'checkpoints')` (line 42). -/
def checkpoint_dir (work_dir : String) : String :=
  os_path_join work_dir "checkpoints"

/-- `resume_model = os.path.join(checkpoint_dir, 'latest.pth')` (line 43). -/
def resume_model (work_dir : String) : String :=
  os_path_join (checkpoint_dir work_dir) "latest.pth"

/-- Python `str` of a bool, as an f-string renders it. -/
def pyBool (b : Bool) : String := if b then "True" else "False"

/-- Python `str` of a list of ints, as an f-string renders it. -/
def pyIntList (l : List Nat) : String :=
  "[" ++ String.intercalate ", " (l.map toString) ++ "]"

/-- The `{epoch:0>3d}` format: decimal, left-padded with zeros to width 3. -/
def padZero3 (n : Nat) : String :=
  let s := toString n
  String.mk (List.replicate (3 - s.length) '0') ++ s

/-- Fixed-point rendering of a rational with `prec` digits, modelling the
`:.4f` / `:.6f` / `:.3f` float formats (rounding half up). -/
def fmtFixed (prec : Nat) (q : ℚ) : String :=
  let n : Int := (q * (10 : ℚ) ^ prec + 1 / 2).floor
  let sign := if n < 0 then "-" else ""
  let m := n.natAbs
  let base := 10 ^ prec
  let fracStr := toString (m % base)
  sign ++ toString (m / base) ++ "." ++
    String.mk (List.replicate (prec - fracStr.length) '0') ++ fracStr

/-- The long option flags registered by `parse_args` (lines 24-31): a single
`add_argument` call for `--work-dir`. -/
def parse_args_flags : List String := ["--work-dir"]

/-- An `argparse` namespace: the attributes actually set by parsing. -/
structure ArgNamespace where
  attrs : List (String × PyVal)
deriving Repr, DecidableEq

/-- Attribute access on the parsed namespace; a missing attribute raises
`AttributeError`, as in Python. -/
def ArgNamespace.getattr (ns : ArgNamespace) (name : String) :
    Except PyError PyVal :=
  match ns.attrs.lookup name with
  | some v => Except.ok v
  | none => Except.error (PyError.attributeError name)

/-- `parse_args` (lines 24-31): the returned namespace holds exactly the
destinations of the registered arguments, i.e. only `work_dir`. -/
def parse_args (cmdline_work_dir : String) : ArgNamespace :=
  { attrs := [("work_dir", PyVal.str cmdline_work_dir)] }

/-- Lines 35-47 of `main`: the GPU assertion, argument parsing, config import,
path derivation, seeding, and the read of `args.local_rank`.  Returns the
trace so far and either the obtained `local_rank` value or the raised
exception. -/
def mainStart (env : Env) : List Action × Except PyError PyVal :=
  if env.cuda_available = false then
    ([], Except.error (PyError.assertionError "need gpu to train network!"))
  else
    let acts := [Action.emptyCache,
                 Action.sysPathAppend env.work_dir,
                 Action.importTrainConfig env.work_dir,
                 Action.setSeed env.config.seed]
    match (parse_args env.work_dir).getattr "local_rank" with
    | Except.ok v => (acts, Except.ok v)
    | Except.error e => (acts, Except.error e)

/-- Exit status of the interpreter given the run's outcome: an uncaught
exception terminates the process with a non-zero status. -/
def processExitCode : Except PyError PyVal → Nat
  | Except.ok _ => 0
  | Except.error _ => 1

/-- The rank-0 gate used throughout `main`:
`(config.distributed and local_rank == 0) or not config.distributed`. -/
def rankGate (cfg : Config) (local_rank : Int) : Bool :=
  (cfg.distributed && local_rank == 0) || !cfg.distributed

/-- `logger.info(log_info) if <gate> else None`. -/
def gatedLog (cfg : Config) (local_rank : Int) (msg : String) : List Action :=
  if rankGate cfg local_rank then [Action.logInfo msg] else []

/-- Lines 54-57: conditional creation of the checkpoint and log directories,
only under the rank-0 gate and only when the directory does not yet exist. -/
def makeDirs (env : Env) (local_rank : Int) : List Action :=
  if rankGate env.config local_rank then
    (if env.checkpoint_dir_exists = false then
      [Action.mkdir (checkpoint_dir env.work_dir)] else []) ++
    (if env.log_dir_exists = false then
      [Action.mkdir (log_dir env.work_dir)] else [])
  else []

/-- Lines 90-99: the loggable `config.__dict__` items.  In the embedding the
config carries only its plain fields; `model`, `criterion`, `decoder`,
`train_dataset` and `val_dataset` - which line 92 excludes - are external
objects and not part of `Config`. -/
def Config.dict_items (c : Config) : List (String × String) :=
  [("distributed", pyBool c.distributed),
   ("epochs", toString c.epochs),
   ("eval_epoch", pyIntList c.eval_epoch),
   ("network", c.network),
   ("seed", toString c.seed),
   ("num_workers", toString c.num_workers),
   ("batch_size", toString c.batch_size)]

/-- Result of the resume block (lines 127-140). -/
structure ResumeResult where
  start_epoch : Nat
  model_state : Nat
  optimizer_state : Nat
  scheduler_state : Nat
  test_loss : Option ℚ
  lr : Option ℚ
  actions : List Action

/-- Lines 127-140: `start_epoch = 1`; if `checkpoints/latest.pth` exists, the
three state dicts are loaded from it, `start_epoch += saved_epoch`, and the
saved `test_loss` and `lr` fields are read back; otherwise nothing is
restored. -/
def resumeStep (env : Env) (local_rank : Int) : ResumeResult :=
  let start_epoch := 1
  if env.latest_exists then
    let checkpoint := env.saved
    { start_epoch := start_epoch + checkpoint.epoch
      model_state := checkpoint.model_state_dict
      optimizer_state := checkpoint.optimizer_state_dict
      scheduler_state := checkpoint.scheduler_state_dict
      test_loss := some checkpoint.test_loss
      lr := some checkpoint.lr
      actions := gatedLog env.config local_rank
        ("resuming model from " ++ resume_model env.work_dir ++
         ". resume_epoch: " ++ toString checkpoint.epoch ++
         ", test_loss: " ++ fmtFixed 4 checkpoint.test_loss ++
         ", lr: " ++ fmtFixed 6 checkpoint.lr) }
  else
    { start_epoch := start_epoch
      model_state := env.init_model_state
      optimizer_state := env.init_optimizer_state
      scheduler_state := env.init_scheduler_state
      test_loss := none
      lr := none
      actions := [] }

/-- Line 159: a test loss is computed exactly when
`epoch in config.eval_epoch or epoch == config.epochs`; otherwise the local
`test_loss` keeps its `None` from line 158. -/
def testLossAt (env : Env) (epoch : Nat) : Option ℚ :=
  if env.config.eval_epoch.contains epoch || epoch == env.config.epochs then
    some (env.eval_loss epoch)
  else none

/-- One iteration of the epoch loop (lines 146-181), given the running
`best_test_loss`; returns the updated best and the iteration's actions.
Note line 168 guards the best-checkpoint save with
`if test_loss and test_loss < best_test_loss`, so a `test_loss` of `None`
- and, by Python truthiness, also one equal to `0.0` - never saves. -/
def epochBody (env : Env) (local_rank : Int) (epoch : Nat)
    (best_test_loss : ℚ) : ℚ × List Action :=
  let cfg := env.config
  let a1 := gatedLog cfg local_rank
    ("epoch " ++ padZero3 epoch ++ " lr: " ++ toString (env.sched_lr epoch))
  let a2 := [Action.emptyCache]
  let a3 := if cfg.distributed then [Action.setEpoch epoch] else []
  let loss := env.train_loss epoch
  let a4 := [Action.trainEpoch epoch]
  let a5 := gatedLog cfg local_rank
    ("train: epoch " ++ padZero3 epoch ++ ", total_loss: " ++ fmtFixed 4 loss)
  let test_loss := testLossAt env epoch
  let a6 :=
    match test_loss with
    | some t =>
        Action.evalEpoch epoch :: gatedLog cfg local_rank
          ("eval: epoch: " ++ padZero3 epoch ++ ", test_loss: " ++
           fmtFixed 4 t)
    | none => []
  if rankGate cfg local_rank then
    let best' :=
      match test_loss with
      | some t => if t ≠ 0 ∧ t < best_test_loss then t else best_test_loss
      | none => best_test_loss
    let a7 :=
      match test_loss with
      | some t =>
          if t ≠ 0 ∧ t < best_test_loss then
            [Action.saveBest (os_path_join (checkpoint_dir env.work_dir)
              "best.pth")]
          else []
      | none => []
    let a8 := [Action.saveLatest
      (os_path_join (checkpoint_dir env.work_dir) "latest.pth")
      { epoch := epoch
        test_loss := best'
        lr := env.sched_lr epoch
        model_state_dict := env.model_state epoch
        optimizer_state_dict := env.optimizer_state epoch
        scheduler_state_dict := env.scheduler_state epoch }]
    (best', a1 ++ a2 ++ a3 ++ a4 ++ a5 ++ a6 ++ a7 ++ a8)
  else
    (best_test_loss, a1 ++ a2 ++ a3 ++ a4 ++ a5 ++ a6)

/-- The epoch loop run over an explicit list of epoch numbers, threading the
running best loss, accumulating actions, and remembering the last value taken
by the loop variable `epoch` (which Python leaves in scope after the loop). -/
def runEpochs (env : Env) (local_rank : Int) :
    List Nat → ℚ → Option Nat → ℚ × List Action × Option Nat
  | [], best, lastE => (best, [], lastE)
  | e :: rest, best, _lastE =>
      let ba := epochBody env local_rank e best
      let r := runEpochs env local_rank rest ba.1 (some e)
      (r.1, ba.2 ++ r.2.1, r.2.2)

/-- Lines 144-181: `best_test_loss = 100000000.` (unconditionally, even on a
resumed run) followed by `for epoch in range(start_epoch, config.epochs + 1)`. -/
def epochLoop (env : Env) (local_rank : Int) (start_epoch : Nat) :
    ℚ × List Action × Option Nat :=
  runEpochs env local_rank
    (List.range' start_epoch (env.config.epochs + 1 - start_epoch))
    100000000 none

/-- Lines 183-190: under the rank-0 gate, if `checkpoints/best.pth` exists it
is renamed to `{network}-epoch{epoch}-best_test_loss{best:.3f}.pth`.  The
f-string references the loop variable `epoch`; if the loop body never ran,
`epoch` is unbound and evaluating the f-string raises `NameError`. -/
def finalRename (env : Env) (local_rank : Int) (best_exists : Bool)
    (epoch : Option Nat) (best_test_loss : ℚ) : List Action × Option PyError :=
  if rankGate env.config local_rank then
    if best_exists then
      match epoch with
      | some e =>
          ([Action.rename
              (os_path_join (checkpoint_dir env.work_dir) "best.pth")
              (os_path_join (checkpoint_dir env.work_dir)
                (env.config.network ++ "-epoch" ++ toString e ++
                 "-best_test_loss" ++ fmtFixed 3 best_test_loss ++ ".pth"))],
           none)
      | none => ([], some (PyError.nameError "epoch"))
    else ([], none)
  else ([], none)

/-- Every name that occurs as an assignment target (or import binding) in the
body of `main`.  A name outside this list is never bound during a run of
`main`; in particular `training_time` does not appear (only `start_time` is
assigned, line 143). -/
def names_assigned_in_main : List String :=
  ["args", "config", "log_dir", "checkpoint_dir", "resume_model", "local_rank",
   "logger", "init_fn", "train_sampler", "collater", "train_loader",
   "val_sampler", "val_loader", "key", "value", "log_info", "gpus_type",
   "gpus_num", "model", "criterion", "decoder", "name", "param", "buffer",
   "optimizer", "scheduler", "start_epoch", "checkpoint", "saved_epoch",
   "test_loss", "lr", "start_time", "best_test_loss", "epoch", "loss"]

/-- The names referenced by the f-string of the final log statement
(line 192), in evaluation order. -/
def final_log_refs : List String := ["config", "training_time", "best_test_loss"]

/-- Evaluating an f-string: the first referenced name not bound in scope
raises `NameError`. -/
def evalNames (scope refs : List String) : Except PyError Unit :=
  match refs.find? (fun n => !scope.contains n) with
  | some n => Except.error (PyError.nameError n)
  | none => Except.ok ()

/-- Whether `checkpoints/best.pth` exists when line 184 runs: it existed when
the run started, or some iteration of this run wrote it. -/
def bestExistsAtEnd (env : Env) (loopActs : List Action) : Bool :=
  env.best_exists_at_start || loopActs.any Action.isSaveBest

/-- Lines 49-125 of `main`: everything between the read of `args.local_rank`
and the resume block - process-group setup, directory creation, barrier,
logger construction, config / gpu / parameter / buffer logging - followed by
the resume block's own log output. -/
def preLoopActions (env : Env) (local_rank : Int) : List Action :=
  let cfg := env.config
  let initPG :=
    if cfg.distributed then [Action.initProcessGroup, Action.setDevice local_rank]
    else []
  let barrierA := if cfg.distributed then [Action.barrier] else []
  let cfgLogs := cfg.dict_items.flatMap
    (fun kv => gatedLog cfg local_rank (kv.1 ++ ": " ++ kv.2))
  let gpuLog := gatedLog cfg local_rank
    ("gpus_type: " ++ env.gpus_type ++ ", gpus_num: " ++ toString env.gpus_num)
  let paramLogs := env.param_names.flatMap
    (fun p => gatedLog cfg local_rank ("name: " ++ p.1 ++ ", grad: " ++ pyBool p.2))
  let bufferLogs := env.buffer_names.flatMap
    (fun p => gatedLog cfg local_rank ("name: " ++ p.1 ++ ", grad: " ++ pyBool p.2))
  initPG ++ makeDirs env local_rank ++ barrierA ++
    [Action.getLogger (log_dir env.work_dir)] ++ cfgLogs ++ gpuLog ++
    paramLogs ++ bufferLogs ++ (resumeStep env local_rank).actions

/-- Lines 49-194 of `main`: everything after the read of `args.local_rank`,
parameterized by the `local_rank` value that line 47 fails to obtain.
Returns the trace of observable actions and the exception, if any, that ends
the run. -/
def mainRest (env : Env) (local_rank : Int) : List Action × Option PyError :=
  let loop := epochLoop env local_rank (resumeStep env local_rank).start_epoch
  let rn := finalRename env local_rank (bestExistsAtEnd env loop.2.1)
    loop.2.2 loop.1
  let trace := preLoopActions env local_rank ++ loop.2.1 ++ rn.1
  let outcome :=
    match rn.2 with
    | some e => some e
    | none =>
        match evalNames names_assigned_in_main final_log_refs with
        | Except.error e => some e
        | Except.ok _ =>
            -- Unreachable: the final f-string always references the unbound
            -- name `training_time` (proved below), so the run never reaches
            -- the `logger.info` of line 193.
            none
  (trace, outcome)

/-! ### Concrete environments used by witnesses and counterexamples -/

/-- A small non-distributed configuration: two epochs, evaluation at epoch 2. -/
def cfg1 : Config :=
  { distributed := false, epochs := 2, eval_epoch := [2], network := "resnet",
    seed := 0, num_workers := 4, batch_size := 8 }

def ck0 : Checkpoint :=
  { epoch := 0, test_loss := 0, lr := 0, model_state_dict := 0,
    optimizer_state_dict := 0, scheduler_state_dict := 0 }

/-- A fresh (non-resumed), non-distributed run. -/
def env1 : Env :=
  { cuda_available := true, work_dir := "/wd", config := cfg1,
    gpus_type := "A100", gpus_num := 1, param_names := [("w", true)],
    buffer_names := [("bn", false)], latest_exists := false,
    best_exists_at_start := false, saved := ck0,
    checkpoint_dir_exists := false, log_dir_exists := false,
    init_model_state := 7, init_optimizer_state := 8, init_scheduler_state := 9,
    model_state := fun e => e, optimizer_state := fun e => e + 1,
    scheduler_state := fun e => e + 2, train_loss := fun _ => 3,
    eval_loss := fun _ => 2, sched_lr := fun _ => 1 / 10 }

/-- An environment without a CUDA device. -/
def envNoGpu : Env := { env1 with cuda_available := false }

/-- A distributed variant of `env1`. -/
def envDist : Env := { env1 with config := { cfg1 with distributed := true } }

/-- A resumed run: `latest.pth` exists with `epoch = 1`, saved best loss 5. -/
def envResume : Env :=
  { env1 with
    latest_exists := true
    saved := { epoch := 1, test_loss := 5, lr := 1 / 100,
               model_state_dict := 11, optimizer_state_dict := 12,
               scheduler_state_dict := 13 } }

/-- Evaluation returns exactly `0.0`, a falsy float in Python. -/
def envZeroLoss : Env :=
  { env1 with
    config := { cfg1 with epochs := 1, eval_epoch := [1] }
    eval_loss := fun _ => 0 }

/-- A resumed run whose first computed test loss is exactly `0.0`. -/
def envResumeZero : Env := { envResume with eval_loss := fun _ => 0 }

/-- A resumed run whose first computed test loss (7) is worse than the best
test loss saved in the checkpoint (5). -/
def envResumeWorse : Env := { envResume with eval_loss := fun _ => 7 }

/-- A resumed run whose checkpoint already holds the final epoch (so the
epoch loop never executes) while a stale `best.pth` is still on disk. -/
def envStale : Env :=
  { envResume with
    best_exists_at_start := true
    saved := { envResume.saved with epoch := 2 } }

/-! ### Claim C1 -/

/-- **C1.** `parse_args` (lines 24-31) registers only `--work-dir`, so the
parsed namespace has no `local_rank` attribute; whenever the GPU assertion
passes, line 47 (`local_rank = args.local_rank`) raises `AttributeError`
before any training, logging, or checkpointing effect has been performed. -/
theorem main_always_raises_attribute_error_local_rank (env : Env)
    (h : env.cuda_available = true) :
    (parse_args env.work_dir).attrs.lookup "local_rank" = none ∧
    (mainStart env).2 = Except.error (PyError.attributeError "local_rank") ∧
    (mainStart env).1.all (fun a => !a.isTrainLogOrCkpt) = true := by
  have hx : (parse_args env.work_dir).getattr "local_rank" =
      Except.error (PyError.attributeError "local_rank") := rfl
  refine ⟨rfl, ?_, ?_⟩ <;>
    simp [mainStart, h, hx, Action.isTrainLogOrCkpt]

/-- Witness for C1 at the concrete environment `env1`. -/
theorem main_always_raises_attribute_error_local_rank_witness :
    env1.cuda_available = true ∧
    ((parse_args env1.work_dir).attrs.lookup "local_rank" = none ∧
     (mainStart env1).2 = Except.error (PyError.attributeError "local_rank") ∧
     (mainStart env1).1.all (fun a => !a.isTrainLogOrCkpt) = true) :=
  ⟨rfl, main_always_raises_attribute_error_local_rank env1 rfl⟩

/-! ### Claim C9 -/

/-- **C9.** Line 35 asserts `torch.cuda.is_available()` as the very first
statement of `main`: without a GPU the run ends at once with
`AssertionError` (empty effect trace, non-zero exit status) before arguments
are parsed; with a GPU the assertion passes and execution continues (the
outcome is never an `AssertionError`, and effects are performed). -/
theorem gpu_assertion_gates_main (env : Env) :
    (env.cuda_available = false →
      mainStart env =
        ([], Except.error (PyError.assertionError "need gpu to train network!")) ∧
      processExitCode (mainStart env).2 ≠ 0) ∧
    (env.cuda_available = true →
      (∀ msg, (mainStart env).2 ≠ Except.error (PyError.assertionError msg)) ∧
      (mainStart env).1 ≠ []) := by
  constructor
  · intro h
    simp [mainStart, h, processExitCode]
  · intro h
    have hx : (parse_args env.work_dir).getattr "local_rank" =
        Except.error (PyError.attributeError "local_rank") := rfl
    constructor
    · intro msg
      simp [mainStart, h, hx]
    · simp [mainStart, h, hx]

/-- Witness for C9: no-GPU and with-GPU environments. -/
theorem gpu_assertion_gates_main_witness :
    (mainStart envNoGpu =
      ([], Except.error (PyError.assertionError "need gpu to train network!")) ∧
     processExitCode (mainStart envNoGpu).2 ≠ 0) ∧
    ((∀ msg, (mainStart env1).2 ≠ Except.error (PyError.assertionError msg)) ∧
     (mainStart env1).1 ≠ []) :=
  ⟨(gpu_assertion_gates_main envNoGpu).1 rfl,
   (gpu_assertion_gates_main env1).2 rfl⟩

/-! ### Claim C2 -/

/-- **C2.** Lines 127-136: training resumes exactly when
`checkpoints/latest.pth` exists - the model, optimizer and scheduler states
are loaded from the checkpoint and `start_epoch = saved_epoch + 1`; when the
file is absent, `start_epoch = 1` and every state keeps its initial value. -/
theorem resume_iff_latest_checkpoint_exists (env : Env) (local_rank : Int) :
    (env.latest_exists = true →
      (resumeStep env local_rank).start_epoch = env.saved.epoch + 1 ∧
      (resumeStep env local_rank).model_state = env.saved.model_state_dict ∧
      (resumeStep env local_rank).optimizer_state =
        env.saved.optimizer_state_dict ∧
      (resumeStep env local_rank).scheduler_state =
        env.saved.scheduler_state_dict) ∧
    (env.latest_exists = false →
      (resumeStep env local_rank).start_epoch = 1 ∧
      (resumeStep env local_rank).model_state = env.init_model_state ∧
      (resumeStep env local_rank).optimizer_state = env.init_optimizer_state ∧
      (resumeStep env local_rank).scheduler_state = env.init_scheduler_state ∧
      (resumeStep env local_rank).actions = []) := by
  constructor
  · intro h
    simp [resumeStep, h, Nat.add_comm]
  · intro h
    simp [resumeStep, h]

/-- Witness for C2: a resumed environment and a fresh one. -/
theorem resume_iff_latest_checkpoint_exists_witness :
    ((resumeStep envResume 0).start_epoch = envResume.saved.epoch + 1 ∧
     (resumeStep envResume 0).model_state = envResume.saved.model_state_dict ∧
     (resumeStep envResume 0).optimizer_state =
       envResume.saved.optimizer_state_dict ∧
     (resumeStep envResume 0).scheduler_state =
       envResume.saved.scheduler_state_dict) ∧
    ((resumeStep env1 0).start_epoch = 1 ∧
     (resumeStep env1 0).model_state = env1.init_model_state ∧
     (resumeStep env1 0).optimizer_state = env1.init_optimizer_state ∧
     (resumeStep env1 0).scheduler_state = env1.init_scheduler_state ∧
     (resumeStep env1 0).actions = []) :=
  ⟨(resume_iff_latest_checkpoint_exists envResume 0).1 rfl,
   (resume_iff_latest_checkpoint_exists env1 0).2 rfl⟩

/-! ### Helper lemmas about one epoch iteration and the loop -/

theorem gatedLog_false {cfg : Config} {local_rank : Int} (msg : String)
    (h : rankGate cfg local_rank = false) : gatedLog cfg local_rank msg = [] := by
  simp [gatedLog, h]

theorem mem_gatedLog {cfg : Config} {local_rank : Int} {msg : String}
    {a : Action} (h : a ∈ gatedLog cfg local_rank msg) :
    a = Action.logInfo msg := by
  unfold gatedLog at h
  split at h <;> simp_all

/-- Whether an epoch iteration writes `best.pth`, as a boolean equation:
it does exactly under the rank-0 gate with a computed, nonzero test loss
strictly below the running best. -/
theorem epochBody_any_saveBest (env : Env) (local_rank : Int) (e : Nat)
    (b : ℚ) :
    (epochBody env local_rank e b).2.any Action.isSaveBest =
      (rankGate env.config local_rank &&
        match testLossAt env e with
        | some t => decide (t ≠ 0 ∧ t < b)
        | none => false) := by
  cases ht : testLossAt env e with
  | none =>
      cases hg : rankGate env.config local_rank <;>
        cases hd : env.config.distributed <;>
          simp [epochBody, ht, hg, hd, gatedLog, Action.isSaveBest]
  | some t =>
      by_cases hc : t ≠ 0 ∧ t < b <;>
        cases hg : rankGate env.config local_rank <;>
          cases hd : env.config.distributed <;>
            simp [epochBody, ht, hg, hd, hc, gatedLog, Action.isSaveBest]

/-- The running best returned by one epoch iteration. -/
theorem epochBody_fst (env : Env) (local_rank : Int) (e : Nat) (b : ℚ) :
    (epochBody env local_rank e b).1 =
      if rankGate env.config local_rank then
        match testLossAt env e with
        | some t => if t ≠ 0 ∧ t < b then t else b
        | none => b
      else b := by
  cases hg : rankGate env.config local_rank <;>
    cases ht : testLossAt env e <;>
      simp [epochBody, ht, hg]

/-- Under the rank-0 gate, one epoch iteration performs exactly one
`saveLatest`, to `checkpoints/latest.pth`, carrying the six-field record. -/
theorem epochBody_saveLatest (env : Env) (local_rank : Int) (e : Nat) (b : ℚ)
    (hg : rankGate env.config local_rank = true) :
    (epochBody env local_rank e b).2.filterMap Action.getSaveLatestPR =
      [(os_path_join (checkpoint_dir env.work_dir) "latest.pth",
        { epoch := e
          test_loss := (epochBody env local_rank e b).1
          lr := env.sched_lr e
          model_state_dict := env.model_state e
          optimizer_state_dict := env.optimizer_state e
          scheduler_state_dict := env.scheduler_state e })] := by
  rw [epochBody_fst env local_rank e b, hg, if_pos rfl]
  cases ht : testLossAt env e <;>
    simp only [epochBody, ht, hg, gatedLog, if_true, List.filterMap_append]
  · cases hd : env.config.distributed <;>
      simp [Action.getSaveLatestPR, hd]
  · cases hd : env.config.distributed <;>
      rename_i t <;> by_cases hc : t ≠ 0 ∧ t < b <;>
        simp [Action.getSaveLatestPR, hd, hc]

/-- Membership preservation through the epoch loop. -/
theorem runEpochs_forall (env : Env) (local_rank : Int) (P : Action → Prop)
    (hP : ∀ e b a, a ∈ (epochBody env local_rank e b).2 → P a) :
    ∀ (l : List Nat) (b : ℚ) (le : Option Nat) (a : Action),
      a ∈ (runEpochs env local_rank l b le).2.1 → P a := by
  intro l
  induction l with
  | nil => intro b le a ha; simp [runEpochs] at ha
  | cons e rest ih =>
      intro b le a ha
      rw [runEpochs] at ha
      rcases List.mem_append.1 ha with h1 | h2
      · exact hP e b a h1
      · exact ih _ _ a h2

/-- After running a loop whose epoch list ends in `e`, the loop variable holds
`e`. -/
theorem runEpochs_last_append (env : Env) (local_rank : Int) :
    ∀ (l : List Nat) (b : ℚ) (le : Option Nat) (e : Nat),
      (runEpochs env local_rank (l ++ [e]) b le).2.2 = some e := by
  intro l
  induction l with
  | nil => intro b le e; rw [List.nil_append, runEpochs, runEpochs]
  | cons x rest ih =>
      intro b le e
      rw [List.cons_append, runEpochs]
      exact ih _ _ e

/-- Under the rank-0 gate, the loop writes `latest.pth` once per epoch, with
the epoch numbers in order. -/
theorem runEpochs_saveLatest_epochs (env : Env) (local_rank : Int)
    (hg : rankGate env.config local_rank = true) :
    ∀ (l : List Nat) (b : ℚ) (le : Option Nat),
      ((runEpochs env local_rank l b le).2.1.filterMap
        Action.getSaveLatestPR).map (fun pr => pr.2.epoch) = l := by
  intro l
  induction l with
  | nil => intro b le; rw [runEpochs]; rfl
  | cons e rest ih =>
      intro b le
      rw [runEpochs, List.filterMap_append, List.map_append,
        epochBody_saveLatest env local_rank e b hg, ih]
      rfl

/-! ### Claim C3 (corrected: a test loss equal to 0.0 is falsy) -/

/-- **C3 counterexample.** Line 168 tests `if test_loss and test_loss < best`:
with a computed test loss of exactly `0.0` - which is strictly below the
running best `100000000.0` - the conjunction is falsy, so `best.pth` is not
written and the running best is not updated, refuting the claim's "whenever
the new test loss is strictly lower than the previous best" direction. -/
theorem best_save_skipped_on_zero_loss :
    rankGate envZeroLoss.config 0 = true ∧
    testLossAt envZeroLoss 1 = some 0 ∧
    (0 : ℚ) < 100000000 ∧
    (epochBody envZeroLoss 0 1 100000000).2.any Action.isSaveBest = false ∧
    (epochBody envZeroLoss 0 1 100000000).1 = 100000000 :=
  ⟨rfl, rfl, by norm_num, rfl, rfl⟩

/-- **C3 (amended).** For an epoch with a computed test loss `t`:
`best.pth` is overwritten iff the process passes the rank-0 gate and `t` is
nonzero and strictly below the previous best; in that case the running best
becomes `t`, otherwise it is unchanged.  For an epoch with no computed test
loss, no `best.pth` write happens and the best is unchanged. -/
theorem best_save_iff_nonzero_improvement (env : Env) (local_rank : Int)
    (e e2 : Nat) (b t : ℚ) (ht : testLossAt env e = some t)
    (ht2 : testLossAt env e2 = none) :
    ((epochBody env local_rank e b).2.any Action.isSaveBest = true ↔
      (rankGate env.config local_rank = true ∧ t ≠ 0 ∧ t < b)) ∧
    (rankGate env.config local_rank = true → t ≠ 0 → t < b →
      (epochBody env local_rank e b).1 = t) ∧
    (¬ (t ≠ 0 ∧ t < b) → (epochBody env local_rank e b).1 = b) ∧
    (epochBody env local_rank e2 b).2.any Action.isSaveBest = false ∧
    (epochBody env local_rank e2 b).1 = b := by
  refine ⟨?_, ?_, ?_, ?_, ?_⟩
  · rw [epochBody_any_saveBest, ht]
    cases hg : rankGate env.config local_rank <;> simp
  · intro hg h0 hlt
    rw [epochBody_fst, hg, if_pos rfl, ht]
    simp [h0, hlt]
  · intro hc
    rw [epochBody_fst, ht]
    cases hg : rankGate env.config local_rank <;> simp [hc]
  · rw [epochBody_any_saveBest, ht2]
    simp
  · rw [epochBody_fst, ht2]
    cases hg : rankGate env.config local_rank <;> simp

/-- Witness for the amended C3 at `env1`: epoch 2 computes a test loss of 2,
epoch 1 computes none. -/
theorem best_save_iff_nonzero_improvement_witness :
    (((epochBody env1 0 2 100000000).2.any Action.isSaveBest = true ↔
       (rankGate env1.config 0 = true ∧ (2 : ℚ) ≠ 0 ∧ (2 : ℚ) < 100000000)) ∧
     (rankGate env1.config 0 = true → (2 : ℚ) ≠ 0 → (2 : ℚ) < 100000000 →
       (epochBody env1 0 2 100000000).1 = 2) ∧
     (¬ ((2 : ℚ) ≠ 0 ∧ (2 : ℚ) < 100000000) →
       (epochBody env1 0 2 100000000).1 = 100000000) ∧
     (epochBody env1 0 1 100000000).2.any Action.isSaveBest = false ∧
     (epochBody env1 0 1 100000000).1 = 100000000) :=
  best_save_iff_nonzero_improvement env1 0 2 1 100000000 2 rfl rfl

/-! ### Claim C8 (corrected: a first test loss of exactly 0.0 does not
overwrite `best.pth`) -/

/-- **C8 counterexample.** A resumed run (`latest.pth` exists, saved best
test loss 5) whose first computed test loss is `0.0 < 100000000.0`: no
iteration of the loop writes `best.pth`, refuting "the first computed test
loss below 100000000.0 overwrites best.pth". -/
theorem resumed_zero_loss_does_not_overwrite_best :
    envResumeZero.latest_exists = true ∧
    rankGate envResumeZero.config 0 = true ∧
    (resumeStep envResumeZero 0).start_epoch = 2 ∧
    testLossAt envResumeZero 2 = some 0 ∧
    (0 : ℚ) < 100000000 ∧
    (epochLoop envResumeZero 0
      (resumeStep envResumeZero 0).start_epoch).2.1.any Action.isSaveBest =
      false :=
  ⟨rfl, rfl, rfl, rfl, by norm_num, rfl⟩

/-- **C8 (amended).** On resume, line 144 re-initializes the running best to
the constant `100000000.0` instead of the checkpoint's saved `test_loss`
field (which the resume block reads but then discards), so a resumed run's
first computed test loss that is *nonzero* and below `100000000.0` overwrites
`best.pth` even when it is strictly worse than the best loss achieved before
the restart. -/
theorem resumed_best_overwritten_despite_worse_loss (env : Env)
    (local_rank : Int) (t : ℚ)
    (h1 : env.latest_exists = true)
    (hg : rankGate env.config local_rank = true)
    (hs : env.saved.epoch + 1 ≤ env.config.epochs)
    (ht : testLossAt env (env.saved.epoch + 1) = some t)
    (h0 : t ≠ 0) (hlt : t < 100000000)
    (hworse : env.saved.test_loss < t) :
    env.saved.test_loss < t ∧
    (resumeStep env local_rank).test_loss = some env.saved.test_loss ∧
    (resumeStep env local_rank).start_epoch = env.saved.epoch + 1 ∧
    (epochLoop env local_rank
      (resumeStep env local_rank).start_epoch).2.1.any Action.isSaveBest =
      true := by
  have hse : (resumeStep env local_rank).start_epoch = env.saved.epoch + 1 := by
    simp [resumeStep, h1, Nat.add_comm]
  refine ⟨hworse, by simp [resumeStep, h1], hse, ?_⟩
  rw [hse]
  set s := env.saved.epoch + 1 with hsdef
  have hn : env.config.epochs + 1 - s = (env.config.epochs - s) + 1 := by omega
  rw [epochLoop, hn, List.range'_succ, runEpochs, List.any_append,
    epochBody_any_saveBest, ht, hg]
  simp [h0, hlt]

/-- Witness for the amended C8: `envResume` with first test loss 2 at epoch 2
(worse than nothing here would be 5 > 2; use an evaluation loss of 7, worse
than the saved best 5, via a dedicated environment). -/
theorem resumed_best_overwritten_despite_worse_loss_witness :
    (envResumeWorse.saved.test_loss < 7 ∧
     (resumeStep envResumeWorse 0).test_loss =
       some envResumeWorse.saved.test_loss ∧
     (resumeStep envResumeWorse 0).start_epoch =
       envResumeWorse.saved.epoch + 1 ∧
     (epochLoop envResumeWorse 0
       (resumeStep envResumeWorse 0).start_epoch).2.1.any Action.isSaveBest =
       true) :=
  resumed_best_overwritten_despite_worse_loss envResumeWorse 0 7 rfl rfl
    (by decide) rfl (by norm_num) (by norm_num) (by decide)

/-! ### Helper lemmas about the whole run -/

/-- When the loop's epoch list ends in `e`, the loop variable ends at `e`. -/
theorem epochLoop_last (env : Env) (local_rank : Int) (s : Nat)
    (h : s ≤ env.config.epochs) :
    (epochLoop env local_rank s).2.2 = some env.config.epochs := by
  have hn : env.config.epochs + 1 - s = (env.config.epochs - s) + 1 := by omega
  rw [epochLoop, hn, List.range'_concat]
  have he : s + 1 * (env.config.epochs - s) = env.config.epochs := by omega
  rw [he, runEpochs_last_append]

theorem finalRename_snd_of_some (env : Env) (local_rank : Int)
    (best_exists : Bool) (e : Nat) (b : ℚ) :
    (finalRename env local_rank best_exists (some e) b).2 = none := by
  cases hg : rankGate env.config local_rank <;> cases best_exists <;>
    simp [finalRename, hg]

theorem finalRename_fst_none (env : Env) (local_rank : Int)
    (best_exists : Bool) (b : ℚ) :
    (finalRename env local_rank best_exists none b).1 = [] := by
  cases hg : rankGate env.config local_rank <;> cases best_exists <;>
    simp [finalRename, hg]

theorem finalRename_fst_of_some (env : Env) (local_rank : Int)
    (best_exists : Bool) (e : Nat) (b : ℚ)
    (hg : rankGate env.config local_rank = true) :
    (finalRename env local_rank best_exists (some e) b).1 =
      (if best_exists then
        [Action.rename (os_path_join (checkpoint_dir env.work_dir) "best.pth")
          (os_path_join (checkpoint_dir env.work_dir)
            (env.config.network ++ "-epoch" ++ toString e ++
             "-best_test_loss" ++ fmtFixed 3 b ++ ".pth"))]
      else []) := by
  cases best_exists <;> simp [finalRename, hg]

theorem finalRename_fst_gate_false (env : Env) (local_rank : Int)
    (best_exists : Bool) (eo : Option Nat) (b : ℚ)
    (hg : rankGate env.config local_rank = false) :
    (finalRename env local_rank best_exists eo b).1 = [] := by
  cases best_exists <;> cases eo <;> simp [finalRename, hg]

/-- The trace of the whole body is the pre-loop actions, the loop actions and
the final-rename actions, whatever the outcome. -/
theorem mainRest_fst (env : Env) (local_rank : Int) :
    (mainRest env local_rank).1 =
      preLoopActions env local_rank ++
      (epochLoop env local_rank (resumeStep env local_rank).start_epoch).2.1 ++
      (finalRename env local_rank
        (bestExistsAtEnd env
          (epochLoop env local_rank (resumeStep env local_rank).start_epoch).2.1)
        (epochLoop env local_rank (resumeStep env local_rank).start_epoch).2.2
        (epochLoop env local_rank (resumeStep env local_rank).start_epoch).1).1 :=
  rfl

theorem evalNames_final_log :
    evalNames names_assigned_in_main final_log_refs =
      Except.error (PyError.nameError "training_time") := rfl

/-- Whenever the loop runs at least one iteration, the run's outcome is the
`NameError` on `training_time` raised by the final log f-string. -/
theorem mainRest_snd_of_le (env : Env) (local_rank : Int)
    (h : (resumeStep env local_rank).start_epoch ≤ env.config.epochs) :
    (mainRest env local_rank).2 = some (PyError.nameError "training_time") := by
  have hl := epochLoop_last env local_rank
    (resumeStep env local_rank).start_epoch h
  simp only [mainRest, hl, finalRename_snd_of_some, evalNames_final_log]

/-- `p` holds on every pre-loop action as soon as it holds on the specific
actions that part of the run can emit. -/
theorem preLoopActions_all (env : Env) (local_rank : Int) (p : Action → Bool)
    (h1 : p Action.initProcessGroup = true)
    (h2 : p (Action.setDevice local_rank) = true)
    (h3 : p (Action.mkdir (checkpoint_dir env.work_dir)) = true)
    (h4 : p (Action.mkdir (log_dir env.work_dir)) = true)
    (h5 : p Action.barrier = true)
    (h6 : p (Action.getLogger (log_dir env.work_dir)) = true)
    (h7 : ∀ m, p (Action.logInfo m) = true) :
    (preLoopActions env local_rank).all p = true := by
  cases hl : env.latest_exists <;>
    cases hg : rankGate env.config local_rank <;>
      cases hd : env.config.distributed <;>
        cases hce : env.checkpoint_dir_exists <;>
          cases hle : env.log_dir_exists <;>
            simp [preLoopActions, makeDirs, resumeStep, gatedLog, hl, hg, hd,
              hce, hle, List.all_append, List.all_flatMap,
              h1, h2, h3, h4, h5, h6, h7]

/-- Gate-false version: a non-writer process only initializes, synchronizes
and builds its logger before the loop. -/
theorem preLoopActions_all_gate_false (env : Env) (local_rank : Int)
    (p : Action → Bool) (hg : rankGate env.config local_rank = false)
    (h1 : p Action.initProcessGroup = true)
    (h2 : p (Action.setDevice local_rank) = true)
    (h5 : p Action.barrier = true)
    (h6 : p (Action.getLogger (log_dir env.work_dir)) = true) :
    (preLoopActions env local_rank).all p = true := by
  cases hl : env.latest_exists <;>
    cases hd : env.config.distributed <;>
      simp [preLoopActions, makeDirs, resumeStep, gatedLog, hl, hg, hd,
        List.all_append, List.all_flatMap, h1, h2, h5, h6]

theorem epochBody_all (env : Env) (local_rank : Int) (e : Nat) (b : ℚ)
    (p : Action → Bool)
    (h1 : p Action.emptyCache = true)
    (h2 : p (Action.setEpoch e) = true)
    (h3 : p (Action.trainEpoch e) = true)
    (h4 : p (Action.evalEpoch e) = true)
    (h5 : ∀ m, p (Action.logInfo m) = true)
    (h6 : p (Action.saveBest
      (os_path_join (checkpoint_dir env.work_dir) "best.pth")) = true)
    (h7 : ∀ c, p (Action.saveLatest
      (os_path_join (checkpoint_dir env.work_dir) "latest.pth") c) = true) :
    (epochBody env local_rank e b).2.all p = true := by
  cases ht : testLossAt env e with
  | none =>
      cases hg : rankGate env.config local_rank <;>
        cases hd : env.config.distributed <;>
          simp [epochBody, ht, hg, hd, gatedLog, List.all_append,
            h1, h2, h3, h4, h5, h6, h7]
  | some t =>
      by_cases hc : t ≠ 0 ∧ t < b <;>
        cases hg : rankGate env.config local_rank <;>
          cases hd : env.config.distributed <;>
            simp [epochBody, ht, hg, hd, hc, gatedLog, List.all_append,
              h1, h2, h3, h4, h5, h6, h7]

/-- Gate-false version: a non-writer process only clears the cache, sets the
sampler epoch, trains and evaluates inside the loop. -/
theorem epochBody_all_gate_false (env : Env) (local_rank : Int) (e : Nat)
    (b : ℚ) (p : Action → Bool)
    (hg : rankGate env.config local_rank = false)
    (h1 : p Action.emptyCache = true)
    (h2 : p (Action.setEpoch e) = true)
    (h3 : p (Action.trainEpoch e) = true)
    (h4 : p (Action.evalEpoch e) = true) :
    (epochBody env local_rank e b).2.all p = true := by
  cases ht : testLossAt env e with
  | none =>
      cases hd : env.config.distributed <;>
        simp [epochBody, ht, hg, hd, gatedLog, List.all_append, h1, h2, h3, h4]
  | some t =>
      cases hd : env.config.distributed <;>
        simp [epochBody, ht, hg, hd, gatedLog, List.all_append, h1, h2, h3, h4]

theorem runEpochs_all (env : Env) (local_rank : Int) (p : Action → Bool)
    (hstep : ∀ e b, (epochBody env local_rank e b).2.all p = true) :
    ∀ (l : List Nat) (b : ℚ) (le : Option Nat),
      (runEpochs env local_rank l b le).2.1.all p = true := by
  intro l
  induction l with
  | nil => intro b le; rfl
  | cons e rest ih =>
      intro b le
      rw [runEpochs]
      simp only [List.all_append, hstep e b, ih, Bool.and_self]

theorem finalRename_all (env : Env) (local_rank : Int) (best_exists : Bool)
    (eo : Option Nat) (b : ℚ) (p : Action → Bool)
    (h : ∀ e : Nat, p (Action.rename
      (os_path_join (checkpoint_dir env.work_dir) "best.pth")
      (os_path_join (checkpoint_dir env.work_dir)
        (env.config.network ++ "-epoch" ++ toString e ++ "-best_test_loss" ++
         fmtFixed 3 b ++ ".pth"))) = true) :
    (finalRename env local_rank best_exists eo b).1.all p = true := by
  cases hg : rankGate env.config local_rank <;> cases best_exists <;>
    cases eo <;> simp [finalRename, hg, h]

/-! ### Claim C4 -/

/-- **C4.** Under the rank-0 gate, every epoch iteration ends with exactly one
write to `checkpoints/latest.pth` whose record holds exactly the epoch
number, the (updated) best test loss, the current learning rate and the three
state dicts; across the loop one such write happens per epoch, in order; and
the resume block reads back all six fields of the saved record. -/
theorem latest_checkpoint_every_epoch_exact_fields (env : Env)
    (local_rank : Int) (e : Nat) (b : ℚ) (env' : Env)
    (hg : rankGate env.config local_rank = true)
    (h' : env'.latest_exists = true) :
    ((epochBody env local_rank e b).2.filterMap Action.getSaveLatestPR =
      [(os_path_join (checkpoint_dir env.work_dir) "latest.pth",
        { epoch := e
          test_loss := (epochBody env local_rank e b).1
          lr := env.sched_lr e
          model_state_dict := env.model_state e
          optimizer_state_dict := env.optimizer_state e
          scheduler_state_dict := env.scheduler_state e })]) ∧
    (((epochLoop env local_rank
        (resumeStep env local_rank).start_epoch).2.1.filterMap
          Action.getSaveLatestPR).map (fun pr => pr.2.epoch) =
      List.range' (resumeStep env local_rank).start_epoch
        (env.config.epochs + 1 - (resumeStep env local_rank).start_epoch)) ∧
    ((resumeStep env' local_rank).start_epoch = env'.saved.epoch + 1 ∧
     (resumeStep env' local_rank).model_state = env'.saved.model_state_dict ∧
     (resumeStep env' local_rank).optimizer_state =
       env'.saved.optimizer_state_dict ∧
     (resumeStep env' local_rank).scheduler_state =
       env'.saved.scheduler_state_dict ∧
     (resumeStep env' local_rank).test_loss = some env'.saved.test_loss ∧
     (resumeStep env' local_rank).lr = some env'.saved.lr) := by
  refine ⟨epochBody_saveLatest env local_rank e b hg, ?_, ?_⟩
  · exact runEpochs_saveLatest_epochs env local_rank hg _ _ _
  · simp [resumeStep, h', Nat.add_comm]

/-- Witness for C4 at `env1` (fresh run) and `envResume` (resumed run). -/
theorem latest_checkpoint_every_epoch_exact_fields_witness :
    (((epochBody env1 0 1 100000000).2.filterMap Action.getSaveLatestPR =
      [(os_path_join (checkpoint_dir env1.work_dir) "latest.pth",
        { epoch := 1
          test_loss := (epochBody env1 0 1 100000000).1
          lr := env1.sched_lr 1
          model_state_dict := env1.model_state 1
          optimizer_state_dict := env1.optimizer_state 1
          scheduler_state_dict := env1.scheduler_state 1 })]) ∧
    (((epochLoop env1 0 (resumeStep env1 0).start_epoch).2.1.filterMap
        Action.getSaveLatestPR).map (fun pr => pr.2.epoch) =
      List.range' (resumeStep env1 0).start_epoch
        (env1.config.epochs + 1 - (resumeStep env1 0).start_epoch)) ∧
    ((resumeStep envResume 0).start_epoch = envResume.saved.epoch + 1 ∧
     (resumeStep envResume 0).model_state = envResume.saved.model_state_dict ∧
     (resumeStep envResume 0).optimizer_state =
       envResume.saved.optimizer_state_dict ∧
     (resumeStep envResume 0).scheduler_state =
       envResume.saved.scheduler_state_dict ∧
     (resumeStep envResume 0).test_loss = some envResume.saved.test_loss ∧
     (resumeStep envResume 0).lr = some envResume.saved.lr)) :=
  latest_checkpoint_every_epoch_exact_fields env1 0 1 100000000 envResume
    rfl rfl

/-! ### Claim C5 -/

/-- **C5.** `training_time` is not among the names `main` ever assigns (only
`start_time` is set, line 143), so evaluating the final log f-string
(line 192) raises `NameError` on `training_time`: every run whose epoch loop
executed at least once ends with that uncaught `NameError` instead of logging
the training time. -/
theorem final_log_name_error_training_time (env : Env) (local_rank : Int)
    (h : (resumeStep env local_rank).start_epoch ≤ env.config.epochs) :
    names_assigned_in_main.contains "training_time" = false ∧
    evalNames names_assigned_in_main final_log_refs =
      Except.error (PyError.nameError "training_time") ∧
    (mainRest env local_rank).2 = some (PyError.nameError "training_time") :=
  ⟨rfl, rfl, mainRest_snd_of_le env local_rank h⟩

/-- Witness for C5 at `env1`. -/
theorem final_log_name_error_training_time_witness :
    (resumeStep env1 0).start_epoch ≤ env1.config.epochs ∧
    (names_assigned_in_main.contains "training_time" = false ∧
     evalNames names_assigned_in_main final_log_refs =
       Except.error (PyError.nameError "training_time") ∧
     (mainRest env1 0).2 = some (PyError.nameError "training_time")) :=
  ⟨by decide, final_log_name_error_training_time env1 0 (by decide)⟩

/-! ### Claim C7 -/

/-- **C7.** In distributed mode, a process with `local_rank ≠ 0` never logs,
never creates the log or checkpoint directories, and never writes or renames
a checkpoint file: its whole trace is free of rank-0-only actions. -/
theorem nonzero_rank_no_rank_zero_actions (env : Env) (local_rank : Int)
    (hd : env.config.distributed = true) (hr : local_rank ≠ 0) :
    (mainRest env local_rank).1.all (fun a => !a.isRankZeroOnly) = true := by
  have hg : rankGate env.config local_rank = false := by
    simp [rankGate, hd, hr]
  rw [mainRest_fst]
  simp only [List.all_append, Bool.and_eq_true]
  refine ⟨⟨?_, ?_⟩, ?_⟩
  · exact preLoopActions_all_gate_false env local_rank _ hg rfl rfl rfl rfl
  · exact runEpochs_all env local_rank _
      (fun e b => epochBody_all_gate_false env local_rank e b _ hg
        rfl rfl rfl rfl) _ _ _
  · rw [finalRename_fst_gate_false env local_rank _ _ _ hg]
    rfl

/-- Witness for C7: rank 1 of the distributed environment `envDist`. -/
theorem nonzero_rank_no_rank_zero_actions_witness :
    envDist.config.distributed = true ∧
    (mainRest envDist 1).1.all (fun a => !a.isRankZeroOnly) = true :=
  ⟨rfl, nonzero_rank_no_rank_zero_actions envDist 1 rfl (by decide)⟩

/-! ### Claim C6 (corrected: with an empty epoch loop, the rename f-string
raises `NameError` on the unbound loop variable `epoch`) -/

/-- **C6 counterexample.** Resuming from a checkpoint whose saved epoch
already equals `config.epochs` leaves the epoch loop with zero iterations,
so the loop variable `epoch` is never bound; if a stale
`checkpoints/best.pth` exists, line 189's f-string then raises `NameError`
on `epoch` and no rename is performed - refuting "if best.pth exists it is
renamed exactly once". -/
theorem stale_best_without_loop_not_renamed :
    envStale.best_exists_at_start = true ∧
    rankGate envStale.config 0 = true ∧
    bestExistsAtEnd envStale
      (epochLoop envStale 0 (resumeStep envStale 0).start_epoch).2.1 = true ∧
    (mainRest envStale 0).1.filter Action.isRename = [] ∧
    (mainRest envStale 0).2 = some (PyError.nameError "epoch") :=
  ⟨rfl, rfl, rfl, rfl, rfl⟩

/-- **C6 (amended).** At the end of a run whose loop executed at least one
iteration (under the rank-0 gate): if `checkpoints/best.pth` exists it is
renamed exactly once, to `{network}-epoch{epoch}-best_test_loss{best:.3f}.pth`
built from the network name, the final epoch number `config.epochs`, and the
final best test loss; if it does not exist, the trace contains no rename at
all. -/
theorem final_best_rename_exactly_once (env : Env) (local_rank : Int)
    (hg : rankGate env.config local_rank = true)
    (hrun : (resumeStep env local_rank).start_epoch ≤ env.config.epochs) :
    (mainRest env local_rank).1.filter Action.isRename =
      (if bestExistsAtEnd env
          (epochLoop env local_rank (resumeStep env local_rank).start_epoch).2.1
       then
        [Action.rename (os_path_join (checkpoint_dir env.work_dir) "best.pth")
          (os_path_join (checkpoint_dir env.work_dir)
            (env.config.network ++ "-epoch" ++ toString env.config.epochs ++
             "-best_test_loss" ++
             fmtFixed 3
               (epochLoop env local_rank
                 (resumeStep env local_rank).start_epoch).1 ++ ".pth"))]
       else []) := by
  have hl := epochLoop_last env local_rank
    (resumeStep env local_rank).start_epoch hrun
  rw [mainRest_fst, hl, List.filter_append, List.filter_append]
  have hpre : (preLoopActions env local_rank).filter Action.isRename = [] := by
    rw [List.filter_eq_nil_iff]
    intro a ha
    have := List.all_eq_true.1
      (preLoopActions_all env local_rank (fun a => !a.isRename)
        rfl rfl rfl rfl rfl rfl (fun m => rfl)) a ha
    simpa using this
  have hloop : ((epochLoop env local_rank
      (resumeStep env local_rank).start_epoch).2.1).filter
        Action.isRename = [] := by
    rw [List.filter_eq_nil_iff]
    intro a ha
    have := List.all_eq_true.1
      (runEpochs_all env local_rank (fun a => !a.isRename)
        (fun e b => epochBody_all env local_rank e b _
          rfl rfl rfl rfl (fun m => rfl) rfl (fun c => rfl)) _ _ _) a ha
    simpa using this
  rw [hpre, hloop, finalRename_fst_of_some env local_rank _ _ _ hg]
  cases hbe : bestExistsAtEnd env
      (epochLoop env local_rank (resumeStep env local_rank).start_epoch).2.1 <;>
    simp [Action.isRename]

/-- Witness for C6 at `env1` (where epoch 2's test loss 2 creates
`best.pth`). -/
theorem final_best_rename_exactly_once_witness :
    (resumeStep env1 0).start_epoch ≤ env1.config.epochs ∧
    (mainRest env1 0).1.filter Action.isRename =
      (if bestExistsAtEnd env1
          (epochLoop env1 0 (resumeStep env1 0).start_epoch).2.1
       then
        [Action.rename (os_path_join (checkpoint_dir env1.work_dir) "best.pth")
          (os_path_join (checkpoint_dir env1.work_dir)
            (env1.config.network ++ "-epoch" ++ toString env1.config.epochs ++
             "-best_test_loss" ++
             fmtFixed 3
               (epochLoop env1 0 (resumeStep env1 0).start_epoch).1 ++ ".pth"))]
       else []) :=
  ⟨by decide, final_best_rename_exactly_once env1 0 rfl (by decide)⟩

/-! ### Claim C10 -/

/-- The last value of the loop variable `epoch` (0 if the loop never ran;
only used to name the rename target, which exists only when it did run). -/
def finalEpochOf (env : Env) (local_rank : Int) : Nat :=
  ((epochLoop env local_rank (resumeStep env local_rank).start_epoch).2.2).getD 0

/-- Every file-system path a run can touch, each one built by `os.path.join`
from the work directory: the two directories under it and the three
checkpoint files under `checkpoints/`. -/
def allowedPaths (env : Env) (local_rank : Int) : List String :=
  [log_dir env.work_dir, checkpoint_dir env.work_dir,
   os_path_join (checkpoint_dir env.work_dir) "best.pth",
   os_path_join (checkpoint_dir env.work_dir) "latest.pth",
   os_path_join (checkpoint_dir env.work_dir)
     (env.config.network ++ "-epoch" ++ toString (finalEpochOf env local_rank) ++
      "-best_test_loss" ++
      fmtFixed 3
        (epochLoop env local_rank (resumeStep env local_rank).start_epoch).1 ++
      ".pth")]

theorem contains_allowedPaths {env : Env} {local_rank : Int} {x : String}
    (h : x ∈ allowedPaths env local_rank) :
    (allowedPaths env local_rank).contains x = true := by
  simpa using h

/-- **C10.** The CLI registers exactly one flag, `--work-dir`; `main` appends
that directory to the import path and imports `train_config` from it; the
log and checkpoint directories and the resume path are joins under it; and
every path in the run's trace is one of the five paths joined from the work
directory. -/
theorem cli_single_flag_and_paths_from_work_dir (env : Env)
    (local_rank : Int) (h : env.cuda_available = true) :
    parse_args_flags = ["--work-dir"] ∧
    (parse_args env.work_dir).attrs = [("work_dir", PyVal.str env.work_dir)] ∧
    Action.sysPathAppend env.work_dir ∈ (mainStart env).1 ∧
    Action.importTrainConfig env.work_dir ∈ (mainStart env).1 ∧
    log_dir env.work_dir = os_path_join env.work_dir "log" ∧
    checkpoint_dir env.work_dir = os_path_join env.work_dir "checkpoints" ∧
    resume_model env.work_dir =
      os_path_join (os_path_join env.work_dir "checkpoints") "latest.pth" ∧
    ((mainRest env local_rank).1.flatMap Action.paths).all
      (fun q => (allowedPaths env local_rank).contains q) = true := by
  have hx : (parse_args env.work_dir).getattr "local_rank" =
      Except.error (PyError.attributeError "local_rank") := rfl
  refine ⟨rfl, rfl, ?_, ?_, rfl, rfl, rfl, ?_⟩
  · simp [mainStart, h, hx]
  · simp [mainStart, h, hx]
  · rw [List.all_flatMap, mainRest_fst]
    simp only [List.all_append, Bool.and_eq_true]
    set p : Action → Bool :=
      fun a => a.paths.all (fun q => (allowedPaths env local_rank).contains q)
      with hp
    refine ⟨⟨?_, ?_⟩, ?_⟩
    · refine preLoopActions_all env local_rank p rfl rfl ?_ ?_ rfl ?_
        (fun m => rfl)
      · simp only [hp, Action.paths, List.all_cons, List.all_nil,
          Bool.and_true]
        exact contains_allowedPaths (by simp [allowedPaths])
      · simp only [hp, Action.paths, List.all_cons, List.all_nil,
          Bool.and_true]
        exact contains_allowedPaths (by simp [allowedPaths])
      · simp only [hp, Action.paths, List.all_cons, List.all_nil,
          Bool.and_true]
        exact contains_allowedPaths (by simp [allowedPaths])
    · refine runEpochs_all env local_rank p
        (fun e b => epochBody_all env local_rank e b p
          rfl rfl rfl rfl (fun m => rfl) ?_ (fun c => ?_)) _ _ _
      · simp only [hp, Action.paths, List.all_cons, List.all_nil,
          Bool.and_true]
        exact contains_allowedPaths (by simp [allowedPaths])
      · simp only [hp, Action.paths, List.all_cons, List.all_nil,
          Bool.and_true]
        exact contains_allowedPaths (by simp [allowedPaths])
    · cases he : (epochLoop env local_rank
          (resumeStep env local_rank).start_epoch).2.2 with
      | none => rw [finalRename_fst_none]; rfl
      | some e =>
          have hfe : finalEpochOf env local_rank = e := by
            simp [finalEpochOf, he]
          cases hg : rankGate env.config local_rank with
          | false => rw [finalRename_fst_gate_false env local_rank _ _ _ hg]; rfl
          | true =>
              rw [finalRename_fst_of_some env local_rank _ _ _ hg]
              cases hbe : bestExistsAtEnd env (epochLoop env local_rank
                  (resumeStep env local_rank).start_epoch).2.1 with
              | false => rfl
              | true =>
                  simp only [if_true, hp, List.all_cons, List.all_nil,
                    Action.paths, Bool.and_true, Bool.and_eq_true]
                  constructor
                  · exact contains_allowedPaths (by simp [allowedPaths])
                  · refine contains_allowedPaths ?_
                    rw [← hfe]
                    simp [allowedPaths]

/-- Witness for C10 at `env1`. -/
theorem cli_single_flag_and_paths_from_work_dir_witness :
    env1.cuda_available = true ∧
    (parse_args_flags = ["--work-dir"] ∧
     (parse_args env1.work_dir).attrs =
       [("work_dir", PyVal.str env1.work_dir)] ∧
     Action.sysPathAppend env1.work_dir ∈ (mainStart env1).1 ∧
     Action.importTrainConfig env1.work_dir ∈ (mainStart env1).1 ∧
     log_dir env1.work_dir = os_path_join env1.work_dir "log" ∧
     checkpoint_dir env1.work_dir = os_path_join env1.work_dir "checkpoints" ∧
     resume_model env1.work_dir =
       os_path_join (os_path_join env1.work_dir "checkpoints") "latest.pth" ∧
     ((mainRest env1 0).1.flatMap Action.paths).all
       (fun q => (allowedPaths env1 0).contains q) = true) :=
  ⟨rfl, cli_single_flag_and_paths_from_work_dir env1 0 rfl⟩

end TrainSemSeg
